import Mathlib

/-!
Verification of the centimail backend's response-normalization core.

Python values flowing through the pipeline are modelled by the `Json`
inductive below; Python `None` is `Json.null` (in Python, `json.loads("null")`
and a missing-key `dict.get` both yield the same `None` object, so the
embedding identifies them).  Dictionaries are association lists with unique
keys in insertion order; `dict.__setitem__` updates in place, and duplicate
keys in parsed JSON text keep the first position with the last value, as in
CPython.  Machine floats never influence any property proved here, so the
JSON number case carries an `Int` (no claim involves a non-integer number).
-/

inductive Json where
  | null
  | bool (b : Bool)
  | num (n : Int)
  | str (s : String)
  | arr (elems : List Json)
  | obj (fields : List (String × Json))
deriving Repr

mutual

def Json.beq : Json → Json → Bool
  | .null, .null => true
  | .bool a, .bool b => a == b
  | .num a, .num b => a == b
  | .str a, .str b => a == b
  | .arr a, .arr b => Json.beqArr a b
  | .obj a, .obj b => Json.beqObj a b
  | _, _ => false

def Json.beqArr : List Json → List Json → Bool
  | a :: as, b :: bs => Json.beq a b && Json.beqArr as bs
  | [], [] => true
  | _, _ => false

def Json.beqObj : List (String × Json) → List (String × Json) → Bool
  | (ka, va) :: as, (kb, vb) :: bs => ka == kb && Json.beq va vb && Json.beqObj as bs
  | [], [] => true
  | _, _ => false

end

instance : BEq Json := ⟨Json.beq⟩

mutual

theorem Json.beq_iff : ∀ a b : Json, Json.beq a b = true ↔ a = b
  | .null, b => by cases b <;> simp [Json.beq]
  | .bool x, b => by cases b <;> simp [Json.beq]
  | .num x, b => by cases b <;> simp [Json.beq]
  | .str x, b => by cases b <;> simp [Json.beq]
  | .arr xs, b => by
      cases b <;> simp [Json.beq]
      exact Json.beqArr_iff xs _
  | .obj xs, b => by
      cases b <;> simp [Json.beq]
      exact Json.beqObj_iff xs _

theorem Json.beqArr_iff : ∀ a b : List Json, Json.beqArr a b = true ↔ a = b
  | [], b => by cases b <;> simp [Json.beqArr]
  | x :: xs, b => by
      cases b with
      | nil => simp [Json.beqArr]
      | cons y ys =>
          simp [Json.beqArr, Bool.and_eq_true, Json.beq_iff x y, Json.beqArr_iff xs ys]

theorem Json.beqObj_iff : ∀ a b : List (String × Json), Json.beqObj a b = true ↔ a = b
  | [], b => by cases b <;> simp [Json.beqObj]
  | (k, v) :: xs, b => by
      cases b with
      | nil => simp [Json.beqObj]
      | cons y ys =>
          cases y with
          | mk k' v' =>
              simp [Json.beqObj, Bool.and_eq_true, Json.beq_iff v v', Json.beqObj_iff xs ys,
                and_assoc]

end

instance : DecidableEq Json := fun a b =>
  decidable_of_iff (Json.beq a b = true) (Json.beq_iff a b)

instance : LawfulBEq Json where
  eq_of_beq h := (Json.beq_iff _ _).mp h
  rfl := by intro a; exact (Json.beq_iff a a).mpr rfl

/-- Python truthiness (`bool(x)`): `None`, `False`, `0`, `""` and empty
containers are falsy, everything else truthy. -/
def Json.truthy : Json → Bool
  | .null => false
  | .bool b => b
  | .num n => n != 0
  | .str s => !s.isEmpty
  | .arr elems => !elems.isEmpty
  | .obj fields => !fields.isEmpty

def Json.isObj : Json → Bool
  | .obj _ => true
  | _ => false

def Json.isArr : Json → Bool
  | .arr _ => true
  | _ => false

def Json.isStr : Json → Bool
  | .str _ => true
  | _ => false

/-- `d.get(k)` (default `None`).  Keys of a Python dict are unique, so the
first match is the only match. -/
def pyGet (j : Json) (k : String) : Json :=
  match j with
  | .obj fields =>
      match fields.find? (fun p => p.1 == k) with
      | some p => p.2
      | none => .null
  | _ => .null

/-- `d.get(k, default)`. -/
def pyGetD (j : Json) (k : String) (d : Json) : Json :=
  match j with
  | .obj fields =>
      match fields.find? (fun p => p.1 == k) with
      | some p => p.2
      | none => d
  | _ => d

/-- `k in d`. -/
def Json.hasKey (j : Json) (k : String) : Bool :=
  match j with
  | .obj fields => fields.any (fun p => p.1 == k)
  | _ => false

/-- `d[k] = v`: replace the value in place when the key exists (CPython keeps
the original position), append otherwise. -/
def objSet (j : Json) (k : String) (v : Json) : Json :=
  match j with
  | .obj fields =>
      if fields.any (fun p => p.1 == k) then
        .obj (fields.map (fun p => if p.1 == k then (p.1, v) else p))
      else
        .obj (fields ++ [(k, v)])
  | other => other

/-- Python `a or b` on two values: `a` when truthy, else `b`. -/
def pyOrJ (a b : Json) : Json := if a.truthy then a else b

/-- Truthiness of an `Optional[str]` configuration value: `None` and `""` are
falsy. -/
def truthyOptStr : Option String → Bool
  | none => false
  | some s => !s.isEmpty

/-- Python `a or b` on two `Optional[str]` values. -/
def pyOrOptStr (a b : Option String) : Option String :=
  if truthyOptStr a then a else b

/-! ## `json.loads` / `json.dumps`

A character-level model of the Python `json` module, covering the fragment the
repository exercises: null, booleans, integers, strings with the standard
escapes, arrays and objects.  Non-integer numerals (a fraction or exponent
part) make the parse fail in this model, where Python would produce a float;
no claim below involves a non-integer number.  Failure (`none`) stands for a
raised `JSONDecodeError`. -/

def lbrace : Char := Char.ofNat 123

def rbrace : Char := Char.ofNat 125

/-- The whitespace accepted between JSON tokens (RFC 8259, as in CPython). -/
def jsonWs (c : Char) : Bool := [' ', '\t', '\n', '\r'].contains c

def dropJsonWs : List Char → List Char
  | [] => []
  | c :: cs => if jsonWs c then dropJsonWs cs else c :: cs

def jsonDigit (c : Char) : Bool := '0' ≤ c && c ≤ '9'

def readDigits : List Char → List Char × List Char
  | [] => ([], [])
  | c :: cs =>
      if jsonDigit c then
        let (ds, rest) := readDigits cs
        (c :: ds, rest)
      else ([], c :: cs)

def digitsVal (ds : List Char) : Nat :=
  ds.foldl (fun acc c => acc * 10 + (c.toNat - 48)) 0

def hexDigitVal (c : Char) : Option Nat :=
  let n := c.toNat
  if 48 ≤ n ∧ n ≤ 57 then some (n - 48)
  else if 97 ≤ n ∧ n ≤ 102 then some (n - 87)
  else if 65 ≤ n ∧ n ≤ 70 then some (n - 55)
  else none

/-- The table of two-character escapes: source character, denoted character. -/
def escapeTable : List (Char × Char) :=
  [('"', '"'), ('\\', '\\'), ('/', '/'), ('b', Char.ofNat 8), ('f', Char.ofNat 12),
    ('n', Char.ofNat 10), ('r', Char.ofNat 13), ('t', Char.ofNat 9)]

def simpleEscape (c : Char) : Option Char :=
  (escapeTable.find? (fun p => p.1 == c)).map (fun p => p.2)

/-- Read a JSON string body (the opening quote already consumed). -/
def readStringBody (acc : List Char) : List Char → Option (String × List Char)
  | [] => none
  | '"' :: rest => some (String.mk acc.reverse, rest)
  | '\\' :: 'u' :: h1 :: h2 :: h3 :: h4 :: rest =>
      match hexDigitVal h1, hexDigitVal h2, hexDigitVal h3, hexDigitVal h4 with
      | some a, some b, some c, some d =>
          readStringBody (Char.ofNat (((a * 16 + b) * 16 + c) * 16 + d) :: acc) rest
      | _, _, _, _ => none
  | '\\' :: e :: rest =>
      match simpleEscape e with
      | some c => readStringBody (c :: acc) rest
      | none => none
  | c :: rest => readStringBody (c :: acc) rest

/-- Reject a numeral that continues as a float in Python (`.`, `e`, `E`),
else yield the integer value. -/
def intStop (n : Int) (rest : List Char) : Option (Int × List Char) :=
  match rest with
  | '.' :: _ => none
  | 'e' :: _ => none
  | 'E' :: _ => none
  | _ => some (n, rest)

def readInt (cs : List Char) : Option (Int × List Char) :=
  match cs with
  | '-' :: r =>
      match readDigits r with
      | ([], _) => none
      | (ds, rest) => intStop (-(digitsVal ds : Int)) rest
  | _ =>
      match readDigits cs with
      | ([], _) => none
      | (ds, rest) => intStop (digitsVal ds : Int) rest

/-- Duplicate keys while parsing an object: CPython keeps the first position
and the last value (`dict` insertion semantics applied left to right). -/
def objInsertParsed (k : String) (v : Json) (rest : List (String × Json)) : Json :=
  match rest.find? (fun p => p.1 == k) with
  | some p => .obj ((k, p.2) :: rest.eraseP (fun q => q.1 == k))
  | none => .obj ((k, v) :: rest)

mutual

def jsonValue : Nat → List Char → Option (Json × List Char)
  | 0, _ => none
  | fuel + 1, cs =>
      match dropJsonWs cs with
      | 'n' :: 'u' :: 'l' :: 'l' :: r => some (Json.null, r)
      | 't' :: 'r' :: 'u' :: 'e' :: r => some (Json.bool true, r)
      | 'f' :: 'a' :: 'l' :: 's' :: 'e' :: r => some (Json.bool false, r)
      | '"' :: r =>
          match readStringBody [] r with
          | some (s, r') => some (.str s, r')
          | none => none
      | '[' :: r =>
          match dropJsonWs r with
          | ']' :: r' => some (.arr [], r')
          | other => jsonElems fuel other
      | c :: r =>
          if c = lbrace then
            match dropJsonWs r with
            | d :: r' =>
                if d = rbrace then some (.obj [], r')
                else jsonFields fuel (d :: r')
            | [] => none
          else if c = '-' || jsonDigit c then
            match readInt (c :: r) with
            | some (n, r') => some (.num n, r')
            | none => none
          else none
      | [] => none

def jsonElems : Nat → List Char → Option (Json × List Char)
  | 0, _ => none
  | fuel + 1, cs =>
      match jsonValue fuel cs with
      | none => none
      | some (v, r) =>
          match dropJsonWs r with
          | ',' :: r' =>
              match jsonElems fuel r' with
              | some (.arr vs, r'') => some (.arr (v :: vs), r'')
              | _ => none
          | ']' :: r' => some (.arr [v], r')
          | _ => none

def jsonFields : Nat → List Char → Option (Json × List Char)
  | 0, _ => none
  | fuel + 1, cs =>
      match dropJsonWs cs with
      | '"' :: r =>
          match readStringBody [] r with
          | none => none
          | some (k, r1) =>
              match dropJsonWs r1 with
              | ':' :: r2 =>
                  match jsonValue fuel r2 with
                  | none => none
                  | some (v, r3) =>
                      match dropJsonWs r3 with
                      | ',' :: r4 =>
                          match jsonFields fuel r4 with
                          | some (.obj ms, r5) => some (objInsertParsed k v ms, r5)
                          | _ => none
                      | c :: r4 =>
                          if c = rbrace then some (.obj [(k, v)], r4) else none
                      | [] => none
              | _ => none
      | _ => none

end

/-- `json.loads`: parse a complete document; trailing garbage is an error. -/
def jsonLoads (s : String) : Option Json :=
  match jsonValue (s.length + 8) s.data with
  | some (v, rest) => if (dropJsonWs rest).isEmpty then some v else none
  | none => none

/-- `json.dumps` escaping of one character (default `ensure_ascii=True`):
quote, backslash and control characters get short escapes, other non-ASCII
code points `\uXXXX`; code points above `0xFFFF` do not occur in this
development. -/
def dumpChar (c : Char) : String :=
  if c == '"' then "\\\""
  else if c == '\\' then "\\\\"
  else if c == '\n' then "\\n"
  else if c == '\t' then "\\t"
  else if c == '\r' then "\\r"
  else if c == Char.ofNat 8 then "\\b"
  else if c == Char.ofNat 12 then "\\f"
  else if c.toNat < 32 || c.toNat > 126 then
    let hx := fun (n : Nat) => String.mk [(Nat.digitChar (n / 4096 % 16)),
      (Nat.digitChar (n / 256 % 16)), (Nat.digitChar (n / 16 % 16)), (Nat.digitChar (n % 16))]
    "\\u" ++ hx c.toNat
  else String.mk [c]

def dumpStringLit (s : String) : String :=
  "\"" ++ String.join (s.data.map dumpChar) ++ "\""

mutual

/-- `json.dumps` with CPython's default separators (`", "` and `": "`). -/
def Json.dumps : Json → String
  | .null => "null"
  | .bool true => "true"
  | .bool false => "false"
  | .num n => toString n
  | .str s => dumpStringLit s
  | .arr elems => "[" ++ Json.dumpsElems elems ++ "]"
  | .obj fields => "\x7b" ++ Json.dumpsFields fields ++ "\x7d"

def Json.dumpsElems : List Json → String
  | [] => ""
  | [v] => Json.dumps v
  | v :: vs => Json.dumps v ++ ", " ++ Json.dumpsElems vs

def Json.dumpsFields : List (String × Json) → String
  | [] => ""
  | [(k, v)] => dumpStringLit k ++ ": " ++ Json.dumps v
  | (k, v) :: fs => dumpStringLit k ++ ": " ++ Json.dumps v ++ ", " ++ Json.dumpsFields fs

end

instance {α β : Type} [DecidableEq α] [DecidableEq β] : DecidableEq (Except α β) := fun a b =>
  match a, b with
  | .ok x, .ok y =>
      if h : x = y then .isTrue (by rw [h])
      else .isFalse (by intro hh; cases hh; exact h rfl)
  | .ok _, .error _ => .isFalse (by intro hh; cases hh)
  | .error _, .ok _ => .isFalse (by intro hh; cases hh)
  | .error x, .error y =>
      if h : x = y then .isTrue (by rw [h])
      else .isFalse (by intro hh; cases hh; exact h rfl)

/-! ## src/backend/openrouter.py

`Except String` models a raised exception escaping the function (the message
is the exception's text; only its presence matters).  The sole raise site in
the extraction helpers is subscripting `choices[0]` when `choices` is a truthy
value that is neither a list nor a string. -/

/-- `x[0]`: head of a list, first character of a string (as a 1-character
string), a `TypeError`/`KeyError` otherwise.  Python dict subscripting with
the int key `0` misses every string key of a JSON object. -/
def pyIndex0 : Json → Except String Json
  | .arr (x :: _) => .ok x
  | .arr [] => .error "IndexError: list index out of range"
  | .str s =>
      match s.data with
      | c :: _ => .ok (.str (String.mk [c]))
      | [] => .error "IndexError: string index out of range"
  | .obj _ => .error "KeyError: 0"
  | _ => .error "TypeError: object is not subscriptable"

/-- `openrouter._content_from_parts`: a non-empty string verbatim; a dict
re-serialized; a list concatenating the `text` of fragments whose `type` is
`"text"` or `"output_text"`; `None` otherwise.  Result is `.str` or `.null`. -/
def content_from_parts (content : Json) : Json :=
  match content with
  | .str s => if s.isEmpty then .null else .str s
  | .obj fields => .str (Json.dumps (.obj fields))
  | .arr items =>
      let parts : List String := items.filterMap (fun item =>
        if item.isObj &&
            (pyGet item "type" == .str "text" || pyGet item "type" == .str "output_text") then
          match pyGet item "text" with
          | .str t => some t
          | _ => none
        else none)
      if parts.isEmpty then .null else .str (String.join parts)
  | _ => .null

/-- `openrouter._extract_parsed_json`. -/
def extract_parsed_json (response : Json) : Except String Json := do
  if !response.isObj then return .null
  if (pyGet response "parsed").isObj then return pyGet response "parsed"
  let choices := pyGetD response "choices" (.arr [])
  if !choices.truthy then return .null
  let c0 ← pyIndex0 choices
  if !c0.isObj then return .null
  let message := pyGetD c0 "message" (.obj [])
  if !message.isObj then return .null
  if (pyGet message "parsed").isObj then return pyGet message "parsed"
  let content := pyGet message "content"
  if content.isObj then return content
  return .null

/-- `openrouter._extract_content`.  Result is `.str` or `.null` (Python
`Optional[str]`). -/
def extract_content (response : Json) : Except String Json := do
  if !response.isObj then return .null
  let fromTop := content_from_parts (pyGet response "content")
  if fromTop.truthy then return fromTop
  let choices := pyGetD response "choices" (.arr [])
  if !choices.truthy then return .null
  let c0 ← pyIndex0 choices
  let first := if c0.isObj then c0 else .obj []
  let message := if (pyGet first "message").isObj then pyGet first "message" else .obj []
  let fromMsg := content_from_parts (pyGet message "content")
  if fromMsg.truthy then return fromMsg
  match pyGet first "text" with
  | .str s => return .str s
  | _ => return .null

/-- Python `str.strip()` whitespace (the ASCII part; the strings in this
development contain no other whitespace). -/
def pySpace (c : Char) : Bool :=
  c == ' ' || [9, 10, 11, 12, 13].contains c.toNat

/-- `text.strip()`. -/
def pyStrip (s : String) : String :=
  String.mk (((s.data.dropWhile pySpace).reverse.dropWhile pySpace).reverse)

/-- `pat` begins `cs` (structural, so concrete instances evaluate). -/
def charsLead : List Char → List Char → Bool
  | [], _ => true
  | p :: ps, q :: qs => if p = q then charsLead ps qs else false
  | _ :: _, [] => false

/-- `s.startswith(pat)`. -/
def pyStartsWith (s pat : String) : Bool := charsLead pat.data s.data

/-- `s.endswith(pat)`. -/
def pyEndsWith (s pat : String) : Bool := charsLead pat.data.reverse s.data.reverse

/-- `text.split("\n", 1)[-1]`: everything after the first newline, or the
whole string when it has none (a one-element split). -/
def afterFirstNewline (s : String) : String :=
  match s.data.splitOn '\n' with
  | [] => s
  | [_] => s
  | _ :: rest => String.mk (List.intercalate ['\n'] rest)

/-- `text.rsplit("\n", 1)[0]`: everything before the last newline, or the
whole string when it has none. -/
def beforeLastNewline (s : String) : String :=
  match s.data.splitOn '\n' with
  | [] => s
  | [_] => s
  | parts => String.mk (List.intercalate ['\n'] (parts.dropLast))

/-- `openrouter._strip_code_fences`. -/
def strip_code_fences (text : String) : String :=
  let stripped := pyStrip text
  let stripped := if pyStartsWith stripped "```" then afterFirstNewline stripped else stripped
  let stripped := if pyEndsWith stripped "```" then beforeLastNewline stripped else stripped
  pyStrip stripped

/-- Index of the first occurrence of `c` (`text.find`), `none` for `-1`. -/
def firstIdxOf (cs : List Char) (c : Char) : Option Nat :=
  match cs.findIdx? (fun d => d == c) with
  | some i => some i
  | none => none

/-- Index of the last occurrence of `c` (`text.rfind`), `none` for `-1`. -/
def lastIdxOf (cs : List Char) (c : Char) : Option Nat :=
  match cs.reverse.findIdx? (fun d => d == c) with
  | some i => some (cs.length - 1 - i)
  | none => none

/-- `openrouter._parse_json_content`: result is a parsed value or `.null` for
Python `None`. -/
def parse_json_content (content : String) : Json :=
  if content.isEmpty then .null
  else
    let text := strip_code_fences content
    match jsonLoads text with
    | some v => v
    | none =>
        match firstIdxOf text.data lbrace, lastIdxOf text.data rbrace with
        | some s, some e =>
            if e ≤ s then .null
            else
              match jsonLoads (String.mk ((text.data.take (e + 1)).drop s)) with
              | some v => v
              | none => .null
        | _, _ => .null

/-- `openrouter.parse_openrouter_json`. -/
def parse_openrouter_json (response : Json) : Except String (Json × String) := do
  let parsedJson ← extract_parsed_json response
  if parsedJson.isObj then return (parsedJson, Json.dumps parsedJson)
  let c ← extract_content response
  let content := match pyOrJ c (.str "") with
    | .str s => s
    | _ => ""
  return (parse_json_content content, content)

/-- Outcome of the single `urllib.request.urlopen` attempt inside
`call_openrouter`'s `try` block: a 2xx reply whose body bytes decoded to
`body`, a raised `HTTPError` (non-2xx; `bodyRead = none` when reading the
error body itself failed), a raised `URLError` (connection-level failure), or
any other raised exception. -/
inductive TransportOutcome where
  | success (body : String)
  | httpError (code : Int) (reason : String) (bodyRead : Option String)
  | urlError (reason : String)
  | otherError (message : String)

/-- `openrouter.call_openrouter`.  The module globals `OPENROUTER_KEY` and
`API_URL` are the first two arguments; the wire is the `transport` argument
(target URL, request headers, request payload).  The guards on the credential
and the target URL run before the payload object is constructed, exactly as in
the source; `Json.null` is the Python `None` return.  Every exception arm of
the source returns a tagged dict, so the function is total.  The `message`
recorded for a body that fails to decode as JSON stands for `str(e)` of the
`JSONDecodeError`; no claim depends on its text. -/
def call_openrouter (cfgKey cfgApiUrl : Option String) (modelName : String) (messages : Json)
    (max_tokens : Option Int) (reasoning : Option Json) (response_format : Option Json)
    (provider : Option Json) (api_url : Option String)
    (headers : Option (List (String × String)))
    (transport : String → Json → Json → TransportOutcome) : Json :=
  if !truthyOptStr cfgKey then .null
  else
    match pyOrOptStr api_url cfgApiUrl with
    | none => .null
    | some target =>
        if target.isEmpty then .null
        else
          let keyStr := match cfgKey with
            | some s => s
            | none => ""
          let baseHeaders : Json := .obj [("Authorization", .str ("Bearer " ++ keyStr)),
            ("Content-Type", .str "application/json")]
          let request_headers := (headers.getD []).foldl
            (fun acc p => objSet acc p.1 (.str p.2)) baseHeaders
          let payload : Json := .obj ([("model", .str modelName), ("messages", messages)]
            ++ (match max_tokens with
                | some n => [("max_tokens", Json.num n)]
                | none => [])
            ++ (match reasoning with
                | some r => [("reasoning", r)]
                | none => [])
            ++ (match response_format with
                | some rf => [("response_format", rf)]
                | none => [])
            ++ (match provider with
                | some p => [("provider", p)]
                | none => []))
          match transport target request_headers payload with
          | .success body =>
              match jsonLoads body with
              | some v => v
              | none => .obj [("error", .str "UnexpectedError"),
                  ("message", .str "JSONDecodeError")]
          | .httpError code reason bodyRead =>
              .obj [("error", .str "HTTPError"), ("status", .num code),
                ("reason", .str reason), ("body", .str (bodyRead.getD ""))]
          | .urlError reason =>
              .obj [("error", .str "URLError"), ("reason", .str reason)]
          | .otherError message =>
              .obj [("error", .str "UnexpectedError"), ("message", .str message)]

/-! ## src/backend/gmail.py and src/backend/config.py -/

def MAX_BODY_CHARS : Nat := 4000

def DEFAULT_LABELS : List String := ["azione_richiesta", "informazione", "importante",
  "non_importante"]

/-- `gmail._truncate`: `text[:limit]` is the first `limit` characters. -/
def _truncate (text : String) (limit : Nat) : String :=
  if text.length ≤ limit then text
  else String.mk (text.data.take limit) ++ "\n\n[truncated]"

/-- `gmail.normalize_email_details`.  A truthy non-string `body` makes the
source call `len` on it: a `TypeError` for numbers and booleans (sequence
bodies never occur — every caller passes a string or nothing), modelled as the
error case. -/
def normalize_email_details (details : Json) : Except String Json :=
  let body := pyOrJ (pyGetD details "body" (.str "")) (.str "")
  match body with
  | .str s =>
      .ok (.obj [
        ("id", pyOrJ (pyGet details "message_id") (pyOrJ (pyGet details "id") (.str ""))),
        ("subject", pyGetD details "subject" (.str "")),
        ("sender", pyGetD details "sender" (.str "")),
        ("date_time", pyGetD details "date_time" (.str "")),
        ("snippet", pyGetD details "snippet" (.str "")),
        ("attachments", .bool (pyGetD details "attachments" .null).truthy),
        ("body", .str (_truncate s MAX_BODY_CHARS))])
  | _ => .error "TypeError: object of this type has no len()"

/-! ## src/backend/classifier.py -/

/-- `classifier._safe_str`. -/
def _safe_str (value : Json) : String :=
  match value with
  | .str s => s
  | _ => ""

/-- `classifier._normalize_result_item`.  Python's `a or b or c` associates to
the left; `pyOrJ` nested to the right picks the same value (the first truthy
one, else the last), so the nesting direction is immaterial. -/
def _normalize_result_item (raw : Json) : Json :=
  .obj [
    ("id", .str (_safe_str (pyOrJ (pyGet raw "id")
      (pyOrJ (pyGet raw "message_id") (pyGet raw "email_id"))))),
    ("label", .str (_safe_str (pyOrJ (pyGet raw "label")
      (pyOrJ (pyGet raw "classificazione")
        (pyOrJ (pyGet raw "classification") (pyGet raw "category")))))),
    ("summary", .str (_safe_str (pyOrJ (pyGet raw "summary")
      (pyOrJ (pyGet raw "riassunto")
        (pyOrJ (pyGet raw "sommario") (pyGet raw "description")))))),
    ("subject", .str (_safe_str (pyOrJ (pyGet raw "subject") (pyGet raw "oggetto")))),
    ("sender", .str (_safe_str (pyOrJ (pyGet raw "sender")
      (pyOrJ (pyGet raw "mittente") (pyGet raw "from")))))]

/-- The literal keys of the single-item fallback test in
`classifier._extract_items_from_parsed` (source lines 43-46). -/
def itemish_keys : List String := ["label", "summary", "classificazione", "riassunto",
  "subject", "sender"]

/-- The `for key in ("items", "emails", "results")` loop: first key whose
value `isinstance(value, list)`. -/
def findFirstArr (parsed : Json) : List String → Option (List Json)
  | [] => none
  | k :: ks =>
      match pyGet parsed k with
      | .arr elems => some elems
      | _ => findFirstArr parsed ks

/-- `classifier._extract_items_from_parsed`. -/
def _extract_items_from_parsed (parsed : Json) : List Json :=
  let listCandidate : Option (List Json) :=
    match findFirstArr parsed ["items", "emails", "results"] with
    | some elems => some elems
    | none =>
        if itemish_keys.any (fun k => parsed.hasKey k) then some [parsed] else none
  match listCandidate with
  | none => []
  | some elems =>
      elems.filterMap (fun item =>
        if item.isObj then some (_normalize_result_item item) else none)

/-- `classifier._build_system_prompt`. -/
def _build_system_prompt (labels : List String) : String :=
  let label_list := String.intercalate ", " labels
  "Sei un assistente esperto in triage di email e gestione documentale. " ++
  "Il tuo compito è analizzare le email e trasformarle in dati strutturati. " ++
  "\n\n1. CLASSIFICAZIONE: Usa esclusivamente UN label scelto tra: [" ++ label_list ++ "]. " ++
  "Non inventare mai etichette non presenti in lista. " ++
  "\n2. RIASSUNTO: Scrivi una sintesi professionale di 1-2 frasi (max 280 caratteri). " ++
  "Focus sull'obiettivo del mittente e sulle eventuali azioni richieste. " ++
  "\n3. CAMPI: Includi sempre subject e sender esattamente come presenti nell'input. " ++
  "\n4. FORMATO: Segui rigorosamente lo schema JSON richiesto da response_format."

/-- `classifier._build_messages`. -/
def _build_messages (email_payloads : List Json) (labels : List String) : Json :=
  let system_prompt := _build_system_prompt labels
  let user_content := Json.dumps (.obj [("emails", .arr email_payloads)])
  let combined := system_prompt ++ "\n\nInput JSON:\n" ++ user_content
  .arr [.obj [("role", .str "user"), ("content", .str combined)]]

/-- `classifier._build_structured_output_format`. -/
def _build_structured_output_format (labels : List String) : Json :=
  .obj [("type", .str "json_schema"),
    ("json_schema", .obj [
      ("name", .str "gmail_triage_output"),
      ("strict", .bool true),
      ("schema", .obj [
        ("type", .str "object"),
        ("additionalProperties", .bool false),
        ("required", .arr [.str "items"]),
        ("properties", .obj [
          ("items", .obj [
            ("type", .str "array"),
            ("items", .obj [
              ("type", .str "object"),
              ("additionalProperties", .bool false),
              ("required", .arr [.str "id", .str "label", .str "summary", .str "subject",
                .str "sender"]),
              ("properties", .obj [
                ("id", .obj [("type", .str "string")]),
                ("label", .obj [("type", .str "string"),
                  ("enum", .arr (labels.map Json.str))]),
                ("summary", .obj [("type", .str "string"), ("maxLength", .num 280)]),
                ("subject", .obj [("type", .str "string")]),
                ("sender", .obj [("type", .str "string")])])])])])])])]

/-- The dict comprehension `{item.get("id",""): item.get("x","") for item in
payloads}`: association pairs in order; a repeated key keeps the last value,
so lookups search from the right. -/
def by_id_pairs (field : String) (payloads : List Json) : List (Json × Json) :=
  payloads.map (fun item => (pyGetD item "id" (.str ""), pyGetD item field (.str "")))

/-- `d.get(k, default)` on a dict built by a comprehension: the value of the
last pair whose key equals `k`. -/
def dictGetLastD (pairs : List (Json × Json)) (k d : Json) : Json :=
  match pairs.reverse.find? (fun p => p.1 == k) with
  | some p => p.2
  | none => d

/-- One iteration of the backfill loop in `classify_and_summarize_messages`
(source lines 179-184). -/
def backfill_item (subj send : List (Json × Json)) (item : Json) : Json :=
  let item_id := pyGetD item "id" (.str "")
  let item1 :=
    if item_id.truthy && !(pyGet item "subject").truthy then
      objSet item "subject" (dictGetLastD subj item_id (.str ""))
    else item
  if item_id.truthy && !(pyGet item1 "sender").truthy then
    objSet item1 "sender" (dictGetLastD send item_id (.str ""))
  else item1

/-- The whole backfill post-pass: `subject_by_id`/`sender_by_id` built from
the input payloads, then the loop over the normalized items. -/
def backfill_items (payloads items : List Json) : List Json :=
  items.map (backfill_item (by_id_pairs "subject" payloads) (by_id_pairs "sender" payloads))

/-- The tail of `classify_and_summarize_messages` from the
`parse_openrouter_json` call on (source lines 170-192): extraction,
normalization, backfill, or the parse-failure envelope. -/
def extraction_phase (payloads : List Json) (response : Json) : Except String Json := do
  let (parsed, content) ← parse_openrouter_json response
  if parsed.isObj then
    return .obj [("items", .arr (backfill_items payloads (_extract_items_from_parsed parsed)))]
  else
    return .obj [("items", .arr []), ("error", .str "Failed to parse JSON response."),
      ("raw_content", .str content), ("raw_response", response)]

/-- How `classify_and_summarize_messages` dispatches on the value returned by
`call_openrouter` (source lines 161-192): falsy → "No response" envelope;
a dict with a truthy `error` and no `choices` key → the "OpenRouter error"
envelope; anything else → `extraction_phase`. -/
def handle_response (payloads : List Json) (response : Json) : Except String Json :=
  if !response.truthy then
    .ok (.obj [("items", .arr []), ("error", .str "No response from OpenRouter.")])
  else if response.isObj && (pyGet response "error").truthy && !(response.hasKey "choices") then
    .ok (.obj [("items", .arr []), ("error", .str "OpenRouter error"), ("details", response)])
  else
    extraction_phase payloads response

/-- `classifier.classify_and_summarize_messages`.  The process configuration
(`OPENROUTER_KEY`, `MODEL`, `API_URL` read from `.env` at import time) is
passed explicitly; `Except.error` is a raised exception escaping the call (the
`ValueError` for a missing model, or a `TypeError` out of payload
normalization); the `timeout` parameter only parameterizes the socket call
inside `transport` and carries no logic of its own. -/
def classify_and_summarize_messages
    (cfgKey cfgModel cfgApiUrl : Option String)
    (transport : String → Json → Json → TransportOutcome)
    (email_details : List Json)
    (modelArg : Option String) (labelsArg : Option (List String))
    (max_tokens : Option Int) (exclude_reasoning : Bool) (use_structured_output : Bool)
    (api_url : Option String) : Except String Json :=
  if email_details.isEmpty then .ok (.obj [("items", .arr [])])
  else
    match pyOrOptStr modelArg cfgModel with
    | none => .error "ValueError: MODEL is missing. Set MODEL in .env or pass model=..."
    | some chosen_model =>
        if chosen_model.isEmpty then
          .error "ValueError: MODEL is missing. Set MODEL in .env or pass model=..."
        else do
          let chosen_labels := match labelsArg with
            | some l => if l.isEmpty then DEFAULT_LABELS else l
            | none => DEFAULT_LABELS
          let payloads ← email_details.mapM normalize_email_details
          let messages := _build_messages payloads chosen_labels
          let reasoning := if exclude_reasoning then some (Json.obj [("exclude", .bool true)])
            else none
          let response_format := if use_structured_output then
              some (_build_structured_output_format chosen_labels)
            else none
          let provider := if use_structured_output then
              some (Json.obj [("require_parameters", .bool true)])
            else none
          let response := call_openrouter cfgKey cfgApiUrl chosen_model messages max_tokens
            reasoning response_format provider api_url none transport
          handle_response payloads response


/-! ## Helper lemmas -/

theorem safe_str_of_falsy (v : Json) (h : v.truthy = false) : _safe_str v = "" := by
  cases v <;> simp_all [Json.truthy, _safe_str]
  exact (String.isEmpty_iff _).mp h

theorem truthy_str_of_ne (s : String) (h : s ≠ "") : (Json.str s).truthy = true := by
  simp only [Json.truthy, Bool.not_eq_true']
  cases he : s.isEmpty
  · rfl
  · exact absurd ((String.isEmpty_iff _).mp he) h

theorem strmk_length (l : List Char) : (String.mk l).length = l.length := rfl

theorem find?_setval (k k' : String) (v : Json) (fields : List (String × Json)) (h : k' ≠ k) :
    List.find? (fun p => p.1 == k') (fields.map (fun p => if p.1 == k then (p.1, v) else p))
      = List.find? (fun p => p.1 == k') fields := by
  induction fields with
  | nil => rfl
  | cons p ps ih =>
      cases hbk : (p.1 == k) with
      | true =>
          have hp : (p.1 == k') = false := by
            rw [beq_iff_eq] at hbk
            rw [beq_eq_false_iff_ne, hbk]
            exact fun hh => h hh.symm
          simp only [List.map_cons, hbk, if_true]
          rw [List.find?_cons_of_neg _ (by simpa using hp),
            List.find?_cons_of_neg _ (by simpa using hp), ih]
      | false =>
          simp only [List.map_cons, hbk, if_false]
          cases hp : (p.1 == k') with
          | true =>
              rw [List.find?_cons_of_pos _ (by simpa using hp),
                List.find?_cons_of_pos _ (by simpa using hp)]
              simp
          | false =>
              rw [List.find?_cons_of_neg _ (by simpa using hp),
                List.find?_cons_of_neg _ (by simpa using hp), ih]

/-- Updating one key of a dict leaves every other key's value alone. -/
theorem pyGet_objSet_ne (j : Json) (k k' : String) (v : Json) (h : k' ≠ k) :
    pyGet (objSet j k v) k' = pyGet j k' := by
  cases j with
  | obj fields =>
      simp only [objSet]
      split
      · simp only [pyGet, find?_setval k k' v fields h]
      · simp only [pyGet, List.find?_append]
        have hnone : List.find? (fun p => p.1 == k') [(k, v)] = none := by
          simp only [List.find?]
          have : ((k, v).1 == k') = false := by
            rw [beq_eq_false_iff_ne]
            exact fun hh => h hh.symm
          simp [this]
        rw [hnone]
        cases List.find? (fun p => p.1 == k') fields <;> rfl
  | null => rfl
  | bool b => rfl
  | num n => rfl
  | str s => rfl
  | arr elems => rfl

/-- The backfill loop writes only the `subject` and `sender` keys. -/
theorem backfill_preserves_id (s d : List (Json × Json)) (item : Json) :
    pyGet (backfill_item s d item) "id" = pyGet item "id" := by
  simp only [backfill_item]
  split_ifs <;>
    simp only [pyGet_objSet_ne _ _ "id" _ (by decide : "id" ≠ "sender"),
      pyGet_objSet_ne _ _ "id" _ (by decide : "id" ≠ "subject")]

/-! ## The claims -/

/-- C9: for an empty input batch, `classify_and_summarize_messages` returns
`{"items": []}` — no `error` field — and the result is literally the same for
every transport and every configuration, so no network call can influence it
(the source returns at line 135, before reading any configuration and before
the transport adapter is ever reachable). -/
theorem c9_empty_batch_short_circuit (cfgKey cfgModel cfgApiUrl : Option String)
    (transport : String → Json → Json → TransportOutcome)
    (modelArg : Option String) (labelsArg : Option (List String)) (max_tokens : Option Int)
    (exclude_reasoning use_structured_output : Bool) (api_url : Option String) :
    classify_and_summarize_messages cfgKey cfgModel cfgApiUrl transport []
        modelArg labelsArg max_tokens exclude_reasoning use_structured_output api_url
      = .ok (.obj [("items", .arr [])])
    ∧ (Json.obj [("items", .arr [])]).hasKey "error" = false :=
  ⟨rfl, rfl⟩

/-- C3: with the API credential absent (or falsy), or with both the per-call
URL override and the configured URL absent (or falsy), `call_openrouter`
returns Python `None` whatever the transport would do — the universally
quantified `transport` never influences the result, so no network attempt is
made, and in the source both guards run before the request payload is
constructed.  The second conjunct is how the caller receives the failure:
`classify_and_summarize_messages` turns that `None` into an error envelope
instead of attempting anything. -/
theorem c3_missing_config_fails_fast (cfgKey cfgApiUrl : Option String) (modelName : String)
    (messages : Json) (max_tokens : Option Int) (reasoning response_format provider : Option Json)
    (api_url : Option String) (headers : Option (List (String × String)))
    (transport : String → Json → Json → TransportOutcome) (payloads : List Json)
    (h : truthyOptStr cfgKey = false ∨ truthyOptStr (pyOrOptStr api_url cfgApiUrl) = false) :
    call_openrouter cfgKey cfgApiUrl modelName messages max_tokens reasoning response_format
        provider api_url headers transport = .null
    ∧ handle_response payloads .null
      = .ok (.obj [("items", .arr []), ("error", .str "No response from OpenRouter.")]) := by
  refine ⟨?_, rfl⟩
  by_cases hk : truthyOptStr cfgKey
  · have hu : truthyOptStr (pyOrOptStr api_url cfgApiUrl) = false := by
      rcases h with h | h
      · rw [hk] at h; cases h
      · exact h
    cases htu : pyOrOptStr api_url cfgApiUrl with
    | none => simp [call_openrouter, hk, htu]
    | some t =>
        rw [htu] at hu
        have ht : t.isEmpty = true := by
          simpa [truthyOptStr] using hu
        simp [call_openrouter, hk, htu, ht]
  · simp only [Bool.not_eq_true] at hk
    simp [call_openrouter, hk]

/-- C3 witness: the credential is absent at a concrete call. -/
theorem c3_missing_config_fails_fast_witness :
    call_openrouter none (some "https://x.example/api") "gpt" (.arr []) (some 800) none none
        none none none (fun _ _ _ => .otherError "unreachable") = .null
    ∧ handle_response [] .null
      = .ok (.obj [("items", .arr []), ("error", .str "No response from OpenRouter.")]) :=
  c3_missing_config_fails_fast none (some "https://x.example/api") "gpt" (.arr []) (some 800)
    none none none none none (fun _ _ _ => .otherError "unreachable") []
    (Or.inl (by decide))

/-- C7 counterexample: a 4001-character body.  `_truncate` keeps the first
4000 characters and appends the 13-character marker `"\n\n[truncated]"`, so
the canonical body is 4013 characters long — strictly more than the
configured limit `MAX_BODY_CHARS = 4000`, refuting "body has length at most
the configured character limit". -/
theorem c7_counterexample :
    ¬ ((_truncate (String.mk (List.replicate 4001 'a')) MAX_BODY_CHARS).length
        ≤ MAX_BODY_CHARS) := by
  have hlen : (String.mk (List.replicate 4001 'a')).length = 4001 := by
    rw [strmk_length, List.length_replicate]
  have h4 : ¬ ((String.mk (List.replicate 4001 'a')).length ≤ MAX_BODY_CHARS) := by
    rw [hlen]; decide
  rw [_truncate, if_neg h4, String.length_append]
  have ht : (String.mk ((String.mk (List.replicate 4001 'a')).data.take MAX_BODY_CHARS)).length
      = 4000 := by
    rw [strmk_length]
    show ((List.replicate 4001 'a').take MAX_BODY_CHARS).length = 4000
    rw [List.length_take, List.length_replicate]
    decide
  rw [ht]
  decide

/-- C7 as amended: bodies within the limit pass through unchanged; longer
bodies become the first `MAX_BODY_CHARS` characters with the truncation
marker appended, so the canonical body length is bounded by
`MAX_BODY_CHARS + 13` (the marker's length), not by `MAX_BODY_CHARS`. -/
theorem c7_truncation_bound (text : String) :
    (text.length ≤ MAX_BODY_CHARS → _truncate text MAX_BODY_CHARS = text)
    ∧ (MAX_BODY_CHARS < text.length →
        _truncate text MAX_BODY_CHARS
          = String.mk (text.data.take MAX_BODY_CHARS) ++ "\n\n[truncated]"
        ∧ (_truncate text MAX_BODY_CHARS).length = MAX_BODY_CHARS + 13)
    ∧ (_truncate text MAX_BODY_CHARS).length ≤ MAX_BODY_CHARS + 13 := by
  have hmarker : ("\n\n[truncated]" : String).length = 13 := by decide
  have hdata : text.length = text.data.length := rfl
  have htk : (String.mk (text.data.take MAX_BODY_CHARS)).length
      = min MAX_BODY_CHARS text.data.length := by
    rw [strmk_length, List.length_take]
  refine ⟨fun h => by rw [_truncate, if_pos h], fun h => ?_, ?_⟩
  · have hn : ¬ (text.length ≤ MAX_BODY_CHARS) := by omega
    refine ⟨by rw [_truncate, if_neg hn], ?_⟩
    rw [_truncate, if_neg hn, String.length_append, hmarker, htk]
    omega
  · by_cases h : text.length ≤ MAX_BODY_CHARS
    · rw [_truncate, if_pos h]; omega
    · rw [_truncate, if_neg h, String.length_append, hmarker, htk]
      omega

/-- C7 witness: both branches of the amended statement at concrete bodies. -/
theorem c7_truncation_bound_witness :
    _truncate "short body" MAX_BODY_CHARS = "short body"
    ∧ (_truncate (String.mk (List.replicate 4001 'b')) MAX_BODY_CHARS).length
        = MAX_BODY_CHARS + 13 :=
  ⟨(c7_truncation_bound "short body").1 (by decide),
    ((c7_truncation_bound (String.mk (List.replicate 4001 'b'))).2.1
      (by rw [strmk_length, List.length_replicate]; decide)).2⟩

/-- Modelled from the spec's words for C4 only, for comparison with the
source: the value of the first synonym key that is *present* in the record,
empty when no synonym key is present or the first present key's value is not
a string. -/
def specFirstPresentField (raw : Json) (keys : List String) : String :=
  match keys.find? (fun k => raw.hasKey k) with
  | some k => _safe_str (pyGet raw k)
  | none => ""

/-- What the `or`-chains in `_normalize_result_item` actually compute: the
value of the first synonym key whose value is *truthy* (so a key present with
`""`, `null`, `0` or `False` is skipped), as a string, else `""`. -/
def firstTruthyField (raw : Json) (keys : List String) : String :=
  match keys.find? (fun k => (pyGet raw k).truthy) with
  | some k => _safe_str (pyGet raw k)
  | none => ""

/-- The shape of a `raw.get(k1) or raw.get(k2) or ...` chain, parameterized
by the key list; on each concrete synonym group it unfolds definitionally to
the corresponding expression inside `_normalize_result_item`. -/
def orLookup (raw : Json) : List String → Json
  | [] => .null
  | [k] => pyGet raw k
  | k :: ks => pyOrJ (pyGet raw k) (orLookup raw ks)

theorem orLookup_eq_firstTruthy (raw : Json) :
    ∀ keys : List String, keys ≠ [] →
      _safe_str (orLookup raw keys) = firstTruthyField raw keys
  | [], h => absurd rfl h
  | [k], _ => by
      cases ht : (pyGet raw k).truthy with
      | true => simp [orLookup, firstTruthyField, List.find?, ht]
      | false =>
          simp only [orLookup, firstTruthyField, List.find?, ht]
          exact safe_str_of_falsy _ ht
  | k :: k' :: ks, _ => by
      cases ht : (pyGet raw k).truthy with
      | true => simp [orLookup, pyOrJ, firstTruthyField, List.find?, ht]
      | false =>
          have ih := orLookup_eq_firstTruthy raw (k' :: ks) (by simp)
          simp [orLookup, pyOrJ, firstTruthyField, List.find?, ht] at ih ⊢
          exact ih

theorem filterMap_ite {α β : Type} (p : α → Bool) (f : α → β) (l : List α) :
    l.filterMap (fun x => if p x then some (f x) else none) = (l.filter p).map f := by
  induction l with
  | nil => rfl
  | cons x xs ih => by_cases h : p x <;> simp [h, ih]

/-- C4 counterexample: the record `{"id": "", "message_id": "m2"}`.  Its
first *present* id-synonym key is `id`, whose value is the string `""`, so
the claim's rule gives `""` — but the code's `or`-chain skips the falsy `""`
and returns `"m2"`. -/
theorem c4_counterexample :
    pyGet (_normalize_result_item (.obj [("id", .str ""), ("message_id", .str "m2")])) "id"
      = .str "m2"
    ∧ specFirstPresentField (.obj [("id", .str ""), ("message_id", .str "m2")])
        ["id", "message_id", "email_id"] = ""
    ∧ ("m2" : String) ≠ "" := by decide

/-- C4 as amended: each normalized field is the value of the first synonym
key whose value is truthy — not the first key merely present — as a string
(`""` when that value is not a string or when no key has a truthy value); and
elements of the item list that are not record-shaped are skipped. -/
theorem c4_synonym_normalization (raw : Json) :
    (pyGet (_normalize_result_item raw) "id"
      = .str (firstTruthyField raw ["id", "message_id", "email_id"]))
    ∧ (pyGet (_normalize_result_item raw) "label"
      = .str (firstTruthyField raw ["label", "classificazione", "classification", "category"]))
    ∧ (pyGet (_normalize_result_item raw) "summary"
      = .str (firstTruthyField raw ["summary", "riassunto", "sommario", "description"]))
    ∧ (pyGet (_normalize_result_item raw) "subject"
      = .str (firstTruthyField raw ["subject", "oggetto"]))
    ∧ (pyGet (_normalize_result_item raw) "sender"
      = .str (firstTruthyField raw ["sender", "mittente", "from"]))
    ∧ (∀ elems : List Json, _extract_items_from_parsed (.obj [("items", .arr elems)])
      = (elems.filter Json.isObj).map _normalize_result_item) := by
  refine ⟨?_, ?_, ⟨?_, ?_, ?_, ?_⟩⟩
  · rw [show pyGet (_normalize_result_item raw) "id"
        = .str (_safe_str (orLookup raw ["id", "message_id", "email_id"])) from rfl,
      orLookup_eq_firstTruthy raw _ (by decide)]
  · rw [show pyGet (_normalize_result_item raw) "label"
        = .str (_safe_str (orLookup raw ["label", "classificazione", "classification",
            "category"])) from rfl,
      orLookup_eq_firstTruthy raw _ (by decide)]
  · rw [show pyGet (_normalize_result_item raw) "summary"
        = .str (_safe_str (orLookup raw ["summary", "riassunto", "sommario", "description"]))
        from rfl,
      orLookup_eq_firstTruthy raw _ (by decide)]
  · rw [show pyGet (_normalize_result_item raw) "subject"
        = .str (_safe_str (orLookup raw ["subject", "oggetto"])) from rfl,
      orLookup_eq_firstTruthy raw _ (by decide)]
  · rw [show pyGet (_normalize_result_item raw) "sender"
        = .str (_safe_str (orLookup raw ["sender", "mittente", "from"])) from rfl,
      orLookup_eq_firstTruthy raw _ (by decide)]
  · intro elems
    unfold _extract_items_from_parsed
    rw [show findFirstArr (.obj [("items", .arr elems)]) ["items", "emails", "results"]
        = some elems from rfl]
    exact filterMap_ite Json.isObj _normalize_result_item elems

/-- C8 counterexample: `{"classification": "informazione"}` contains the
item-ish key `classification` in English, yet the single-item fallback does
not fire — the source checks the literal keys `label`, `summary`,
`classificazione`, `riassunto`, `subject`, `sender` only, so the result is
`[]`, refuting the claim for the English spelling `classification`. -/
theorem c8_counterexample :
    (Json.obj [("classification", .str "informazione")]).hasKey "classification" = true
    ∧ findFirstArr (.obj [("classification", .str "informazione")])
        ["items", "emails", "results"] = none
    ∧ _extract_items_from_parsed (.obj [("classification", .str "informazione")]) = [] := by
  decide

/-- C8 as amended: when none of `items`/`emails`/`results` holds an array,
the parsed object is treated as a single-element item list exactly when it
contains one of the six literal keys in `itemish_keys` (`label`, `summary`,
`subject`, `sender` in English and `classificazione`, `riassunto` in
Italian — not `classification`, `oggetto`, `mittente` or other spellings);
otherwise the result is the empty list, with no error. -/
theorem c8_single_item_fallback (parsed : Json)
    (h : findFirstArr parsed ["items", "emails", "results"] = none) :
    _extract_items_from_parsed parsed =
      (if itemish_keys.any (fun k => parsed.hasKey k) then [_normalize_result_item parsed]
       else []) := by
  unfold _extract_items_from_parsed
  rw [h]
  cases hany : itemish_keys.any (fun k => parsed.hasKey k) with
  | false => simp
  | true =>
      have hobj : parsed.isObj = true := by
        rcases List.any_eq_true.mp hany with ⟨k, hk, hkey⟩
        cases parsed <;> simp_all [Json.hasKey, Json.isObj]
      simp [hobj]

/-- C8 witness: a record whose only item-ish key is the Italian `riassunto`. -/
theorem c8_single_item_fallback_witness :
    _extract_items_from_parsed (.obj [("riassunto", .str "x")])
      = [_normalize_result_item (.obj [("riassunto", .str "x")])] := by
  have h := c8_single_item_fallback (.obj [("riassunto", .str "x")]) (by decide)
  simpa using h

/-- C5: the backfill law over the backfill pass of
`classify_and_summarize_messages` (source lines 173-184).  `i` is the
normalized item's id; the two `find?` hypotheses say `i` is a key of the
`subject_by_id` / `sender_by_id` dicts built from the input payloads — i.e.
the id matches an input payload — and name the looked-up input subject `sv`
and sender `dv` (for duplicated input ids the dict comprehension keeps the
last payload's values, which is what the lookup returns).  Empty subject and
sender are replaced by `sv`/`dv`; non-empty ones are untouched even when they
differ from the input's. -/
theorem c5_backfill_law (payloads : List Json) (raw kS kD sv dv : Json) (i : String)
    (hid : pyGet (_normalize_result_item raw) "id" = .str i)
    (hne : i ≠ "")
    (hs : (by_id_pairs "subject" payloads).reverse.find? (fun q => q.1 == Json.str i)
      = some (kS, sv))
    (hd : (by_id_pairs "sender" payloads).reverse.find? (fun q => q.1 == Json.str i)
      = some (kD, dv)) :
    (pyGet (_normalize_result_item raw) "subject" = .str "" →
      pyGet (backfill_item (by_id_pairs "subject" payloads) (by_id_pairs "sender" payloads)
        (_normalize_result_item raw)) "subject" = sv)
    ∧ (pyGet (_normalize_result_item raw) "subject" ≠ .str "" →
      pyGet (backfill_item (by_id_pairs "subject" payloads) (by_id_pairs "sender" payloads)
        (_normalize_result_item raw)) "subject"
        = pyGet (_normalize_result_item raw) "subject")
    ∧ (pyGet (_normalize_result_item raw) "sender" = .str "" →
      pyGet (backfill_item (by_id_pairs "subject" payloads) (by_id_pairs "sender" payloads)
        (_normalize_result_item raw)) "sender" = dv)
    ∧ (pyGet (_normalize_result_item raw) "sender" ≠ .str "" →
      pyGet (backfill_item (by_id_pairs "subject" payloads) (by_id_pairs "sender" payloads)
        (_normalize_result_item raw)) "sender"
        = pyGet (_normalize_result_item raw) "sender") := by
  obtain ⟨a, b, c, d0, e, hnr⟩ : ∃ a b c d0 e, _normalize_result_item raw
      = .obj [("id", .str a), ("label", .str b), ("summary", .str c), ("subject", .str d0),
          ("sender", .str e)] := ⟨_, _, _, _, _, rfl⟩
  rw [hnr] at hid ⊢
  have ha : a = i := by
    have hx := hid
    simp [pyGet, List.find?] at hx
    exact hx
  subst ha
  have htr : (Json.str a).truthy = true := truthy_str_of_ne a hne
  have hae : a.isEmpty = false := by simpa [Json.truthy] using htr
  have hemp : ("" : String).isEmpty = true := rfl
  have hgid : pyGetD (Json.obj [("id", .str a), ("label", .str b), ("summary", .str c),
      ("subject", .str d0), ("sender", .str e)]) "id" (.str "") = .str a := by
    simp [pyGetD, List.find?]
  have hgsub : pyGet (Json.obj [("id", .str a), ("label", .str b), ("summary", .str c),
      ("subject", .str d0), ("sender", .str e)]) "subject" = .str d0 := by
    simp [pyGet, List.find?]
  have hgsen : pyGet (Json.obj [("id", .str a), ("label", .str b), ("summary", .str c),
      ("subject", .str d0), ("sender", .str e)]) "sender" = .str e := by
    simp [pyGet, List.find?]
  have hlookS : dictGetLastD (by_id_pairs "subject" payloads) (.str a) (.str "") = sv := by
    simp [dictGetLastD, hs]
  have hlookD : dictGetLastD (by_id_pairs "sender" payloads) (.str a) (.str "") = dv := by
    simp [dictGetLastD, hd]
  refine ⟨fun hsub => ?_, fun hsub => ?_, fun hsen => ?_, fun hsen => ?_⟩
  · have hd0 : d0 = "" := by
      rw [hgsub] at hsub
      exact (Json.str.injEq _ _).mp hsub
    subst hd0
    simp only [backfill_item, hgid, hgsub, hgsen, htr, hae, hemp, hlookS, hlookD]
    split_ifs <;>
      simp_all [objSet, pyGet, List.find?, Json.truthy, hae, hemp, hlookS, hlookD]
  · have hd0 : d0 ≠ "" := by
      rw [hgsub] at hsub
      intro hh
      exact hsub (by rw [hh])
    have htd : (Json.str d0).truthy = true := truthy_str_of_ne d0 hd0
    have hd0e : d0.isEmpty = false := by simpa [Json.truthy] using htd
    rw [hgsub]
    simp only [backfill_item, hgid, hgsub, hgsen, htr, hae, hd0e, hlookS, hlookD]
    split_ifs <;>
      simp_all [objSet, pyGet, List.find?, Json.truthy, hae, hd0e, hlookS, hlookD]
  · have he0 : e = "" := by
      rw [hgsen] at hsen
      exact (Json.str.injEq _ _).mp hsen
    subst he0
    simp only [backfill_item, hgid, hgsub, hgsen, htr, hae, hemp, hlookS, hlookD]
    split_ifs <;>
      simp_all [objSet, pyGet, List.find?, Json.truthy, hae, hemp, hlookS, hlookD]
  · have he0 : e ≠ "" := by
      rw [hgsen] at hsen
      intro hh
      exact hsen (by rw [hh])
    have hte : (Json.str e).truthy = true := truthy_str_of_ne e he0
    have he0e : e.isEmpty = false := by simpa [Json.truthy] using hte
    rw [hgsen]
    simp only [backfill_item, hgid, hgsub, hgsen, htr, hae, he0e, hlookS, hlookD]
    split_ifs <;>
      simp_all [objSet, pyGet, List.find?, Json.truthy, hae, he0e, hlookS, hlookD]

/-- C5 witness: a model item `{"id": "m1", "classificazione": "informazione",
"mittente": "evil@x"}` against an input payload with id `m1`: the empty
subject is backfilled from the input, the non-empty sender is preserved even
though it differs from the input's. -/
theorem c5_backfill_law_witness :
    pyGet (backfill_item
        (by_id_pairs "subject" [.obj [("id", .str "m1"), ("subject", .str "Invoice due"),
          ("sender", .str "billing@x.com")]])
        (by_id_pairs "sender" [.obj [("id", .str "m1"), ("subject", .str "Invoice due"),
          ("sender", .str "billing@x.com")]])
        (_normalize_result_item (.obj [("id", .str "m1"),
          ("classificazione", .str "informazione"), ("mittente", .str "evil@x")])))
      "subject" = .str "Invoice due"
    ∧ pyGet (backfill_item
        (by_id_pairs "subject" [.obj [("id", .str "m1"), ("subject", .str "Invoice due"),
          ("sender", .str "billing@x.com")]])
        (by_id_pairs "sender" [.obj [("id", .str "m1"), ("subject", .str "Invoice due"),
          ("sender", .str "billing@x.com")]])
        (_normalize_result_item (.obj [("id", .str "m1"),
          ("classificazione", .str "informazione"), ("mittente", .str "evil@x")])))
      "sender" = .str "evil@x" := by
  have h := c5_backfill_law
    [.obj [("id", .str "m1"), ("subject", .str "Invoice due"),
      ("sender", .str "billing@x.com")]]
    (.obj [("id", .str "m1"), ("classificazione", .str "informazione"),
      ("mittente", .str "evil@x")])
    (.str "m1") (.str "m1") (.str "Invoice due") (.str "billing@x.com") "m1"
    (by decide) (by decide) (by decide) (by decide)
  exact ⟨h.1 (by decide), (h.2.2.2 (by decide)).trans (by decide)⟩

/-- A one-email input batch with id `m1` for the C1 scenario. -/
def c1Details : List Json := [.obj [("id", .str "m1"), ("subject", .str "Invoice due"),
  ("sender", .str "billing@x.com"), ("body", .str "please pay")]]

/-- A provider reply whose pre-parsed object carries an item with the
hallucinated id `zzz`, absent from the input batch. -/
def c1Body : String := "\x7b\"parsed\": \x7b\"items\": [\x7b\"id\": \"zzz\", \"label\": \"informazione\", \"summary\": \"S.\"\x7d]\x7d\x7d"

/-- C1 counterexample: the model returns an item with id `zzz` while the only
input id is `m1`; the pipeline keeps the item — id `zzz` and all — with
subject and sender backfilled to `""` because the lookup misses.  So a
returned item's non-empty id need not correspond to any input id. -/
theorem c1_counterexample :
    classify_and_summarize_messages (some "k") (some "m") (some "u")
        (fun _ _ _ => .success c1Body) c1Details none none (some 800) true true none
      = .ok (.obj [("items", .arr [.obj [("id", .str "zzz"), ("label", .str "informazione"),
          ("summary", .str "S."), ("subject", .str ""), ("sender", .str "")]])])
    ∧ (match c1Details.mapM normalize_email_details with
        | .ok payloads => payloads.map (fun p => pyGet p "id")
        | .error _ => []) = [.str "m1"]
    ∧ Json.str "zzz" ∉ [Json.str "m1"] := by decide

/-- C1 as amended: item ids pass through the post-pass verbatim — the
backfill writes only `subject` and `sender` — so the result's ids are exactly
the ids the model returned, whether or not they occur in the input batch
(hallucinated ids are kept, with `""` backfill). -/
theorem c1_id_passthrough (payloads : List Json) (parsed : Json) :
    (backfill_items payloads (_extract_items_from_parsed parsed)).map (fun it => pyGet it "id")
      = (_extract_items_from_parsed parsed).map (fun it => pyGet it "id") := by
  unfold backfill_items
  rw [List.map_map]
  exact List.map_congr_left (fun it _ => backfill_preserves_id _ _ it)

/-- The bare-list content string of spec Scenario B. -/
def c2Content : String := "[\x7b\"classificazione\": \"informazione\", \"riassunto\": \"FYI only.\"\x7d]"

/-- A provider reply whose first choice's message content is `c2Content`. -/
def c2Body : String := "\x7b\"choices\": [\x7b\"message\": \x7b\"content\": \"[\x7b\\\"classificazione\\\": \\\"informazione\\\", \\\"riassunto\\\": \\\"FYI only.\\\"\x7d]\"\x7d\x7d]\x7d"

/-- `c2Body`, decoded. -/
def c2Response : Json := .obj [("choices", .arr [.obj [("message",
  .obj [("content", .str c2Content)])]])]

/-- C2 counterexample: the content parses to a JSON *list*, which is not a
dict, so the `isinstance(parsed, dict)` guard rejects it: the result is the
parse-failure envelope with empty items — not one ResultItem with label
`informazione` and summary `FYI only.` as the claim states. -/
theorem c2_counterexample :
    jsonLoads c2Body = some c2Response
    ∧ parse_json_content c2Content
      = .arr [.obj [("classificazione", .str "informazione"), ("riassunto", .str "FYI only.")]]
    ∧ classify_and_summarize_messages (some "k") (some "m") (some "u")
        (fun _ _ _ => .success c2Body)
        [.obj [("id", .str "m1"), ("subject", .str "S"), ("body", .str "B")]]
        none none (some 800) true true none
      = .ok (.obj [("items", .arr []), ("error", .str "Failed to parse JSON response."),
          ("raw_content", .str c2Content), ("raw_response", c2Response)]) := by decide

/-- C2 as amended: whenever extraction yields a parsed value that is not a
dict (a bare list in particular), the pipeline returns
`{items: [], error: "Failed to parse JSON response.", raw_content, raw_response}`;
bare lists are never normalized into items. -/
theorem c2_nondict_parse_failure (payloads : List Json) (response parsed : Json)
    (content : String)
    (h : parse_openrouter_json response = .ok (parsed, content))
    (hnd : parsed.isObj = false) :
    extraction_phase payloads response
      = .ok (.obj [("items", .arr []), ("error", .str "Failed to parse JSON response."),
          ("raw_content", .str content), ("raw_response", response)]) := by
  unfold extraction_phase
  rw [h]
  simp [Bind.bind, Except.bind, Pure.pure, Except.pure, hnd]

/-- C2 witness: the amended statement at the Scenario B response. -/
theorem c2_nondict_parse_failure_witness :
    extraction_phase [] c2Response
      = .ok (.obj [("items", .arr []), ("error", .str "Failed to parse JSON response."),
          ("raw_content", .str c2Content), ("raw_response", c2Response)]) :=
  c2_nondict_parse_failure [] c2Response
    (.arr [.obj [("classificazione", .str "informazione"), ("riassunto", .str "FYI only.")]])
    c2Content (by decide) (by decide)

/-- The wire attempt failed: non-2xx status, connection failure, or any other
exception. -/
def isWireFailure : TransportOutcome → Bool
  | .success _ => false
  | .httpError _ _ _ => true
  | .urlError _ => true
  | .otherError _ => true

/-- C6: with configuration present, every failing wire outcome makes
`call_openrouter` return a dict tagged with a truthy `error` field (the
embedding is total, mirroring the source's catch-all `except` arms: nothing
is raised past the adapter); and an HTTP 401 in particular propagates through
`classify_and_summarize_messages` as the structured
`{items: [], error: "OpenRouter error", details: {...}}` result, for every
reason text and every (possibly unreadable) error body. -/
theorem c6_transport_failures_tagged
    (key url chosen_model : String) (hk : key ≠ "") (hu : url ≠ "")
    (messages : Json) (max_tokens : Option Int)
    (reasoning response_format provider : Option Json)
    (headers : Option (List (String × String)))
    (o : TransportOutcome) (ho : isWireFailure o = true)
    (cfgModel : Option String) (email_details payloads : List Json)
    (hne : email_details ≠ [])
    (hpl : email_details.mapM normalize_email_details = Except.ok payloads)
    (hm : chosen_model ≠ "") (reason : String) (bodyRead : Option String) :
    ((call_openrouter (some key) (some url) chosen_model messages max_tokens reasoning
        response_format provider none headers (fun _ _ _ => o)).hasKey "error" = true
      ∧ (pyGet (call_openrouter (some key) (some url) chosen_model messages max_tokens
          reasoning response_format provider none headers (fun _ _ _ => o)) "error").truthy
        = true)
    ∧ classify_and_summarize_messages (some key) cfgModel (some url)
        (fun _ _ _ => .httpError 401 reason bodyRead) email_details (some chosen_model)
        none max_tokens true true none
      = .ok (.obj [("items", .arr []), ("error", .str "OpenRouter error"),
          ("details", .obj [("error", .str "HTTPError"), ("status", .num 401),
            ("reason", .str reason), ("body", .str (bodyRead.getD ""))])]) := by
  have hke : key.isEmpty = false := by
    cases hkk : key.isEmpty
    · rfl
    · exact absurd ((String.isEmpty_iff _).mp hkk) hk
  have hue : url.isEmpty = false := by
    cases huu : url.isEmpty
    · rfl
    · exact absurd ((String.isEmpty_iff _).mp huu) hu
  have hme : chosen_model.isEmpty = false := by
    cases hmm : chosen_model.isEmpty
    · rfl
    · exact absurd ((String.isEmpty_iff _).mp hmm) hm
  constructor
  · cases o with
    | success body => simp [isWireFailure] at ho
    | httpError code reason2 bodyRead2 =>
        constructor <;>
          simp [call_openrouter, truthyOptStr, pyOrOptStr, hke, hue, Json.hasKey,
            pyGet, List.find?, Json.truthy] <;>
          decide
    | urlError reason2 =>
        constructor <;>
          simp [call_openrouter, truthyOptStr, pyOrOptStr, hke, hue, Json.hasKey,
            pyGet, List.find?, Json.truthy] <;>
          decide
    | otherError msg =>
        constructor <;>
          simp [call_openrouter, truthyOptStr, pyOrOptStr, hke, hue, Json.hasKey,
            pyGet, List.find?, Json.truthy] <;>
          decide
  · have hnee : email_details.isEmpty = false := by
      cases email_details
      · exact absurd rfl hne
      · rfl
    have hpor : pyOrOptStr (some chosen_model) cfgModel = some chosen_model := by
      simp [pyOrOptStr, truthyOptStr, hme]
    unfold classify_and_summarize_messages
    rw [hnee, hpor]
    simp only [Bool.false_eq_true, if_false, hme, hpl]
    simp [Bind.bind, Except.bind, Pure.pure, Except.pure, call_openrouter, truthyOptStr,
      pyOrOptStr, hke, hue, handle_response, Json.truthy, Json.isObj, Json.hasKey,
      pyGet, List.find?]
    intro hcontra
    exact absurd hcontra (by decide)

/-- C6 witness: a concrete 401 with both conjuncts instantiated. -/
theorem c6_transport_failures_tagged_witness :
    ((call_openrouter (some "sk") (some "https://x.example") "gpt" (.arr []) (some 800)
        none none none none none
        (fun _ _ _ => .httpError 401 "Unauthorized" (some "denied"))).hasKey "error" = true)
    ∧ classify_and_summarize_messages (some "sk") none (some "https://x.example")
        (fun _ _ _ => .httpError 401 "Unauthorized" (some "denied"))
        [.obj [("id", .str "m1"), ("body", .str "B")]] (some "gpt")
        none (some 800) true true none
      = .ok (.obj [("items", .arr []), ("error", .str "OpenRouter error"),
          ("details", .obj [("error", .str "HTTPError"), ("status", .num 401),
            ("reason", .str "Unauthorized"), ("body", .str "denied")])]) := by
  have h := c6_transport_failures_tagged "sk" "https://x.example" "gpt"
    (by decide) (by decide) (.arr []) (some 800) none none none none
    (.httpError 401 "Unauthorized" (some "denied")) (by decide) none
    [.obj [("id", .str "m1"), ("body", .str "B")]]
    [.obj [("id", .str "m1"), ("subject", .str ""), ("sender", .str ""),
      ("date_time", .str ""), ("snippet", .str ""), ("attachments", .bool false),
      ("body", .str "B")]]
    (by decide) (by decide) (by decide) "Unauthorized" (some "denied")
  exact ⟨h.1.1, h.2⟩

/-- A dict whose looked-up value somewhere is truthy is itself truthy
(non-empty). -/
theorem truthy_of_truthy_get (response : Json) (k : String)
    (h : (pyGet response k).truthy = true) : response.truthy = true := by
  cases response with
  | obj fields =>
      cases fields with
      | nil => simp [pyGet, List.find?, Json.truthy] at h
      | cons p ps => simp [Json.truthy]
  | null => simp [pyGet, Json.truthy] at h
  | bool b => simp [pyGet, Json.truthy] at h
  | num n => simp [pyGet, Json.truthy] at h
  | str s => simp [pyGet, Json.truthy] at h
  | arr elems => simp [pyGet, Json.truthy] at h

/-- C10: the transport-error guard fires only when the dict has a truthy
`error` AND lacks a `choices` key.  With `choices` present, the response goes
to extraction and normalization (`extraction_phase`) like a normal provider
reply and the `"OpenRouter error"` envelope is never produced; without
`choices`, that envelope, carrying the response as `details`, is exactly the
result. -/
theorem c10_error_guard (payloads : List Json) (response : Json)
    (hobj : response.isObj = true)
    (herr : (pyGet response "error").truthy = true) :
    (response.hasKey "choices" = true →
      handle_response payloads response = extraction_phase payloads response
      ∧ ∀ d : Json, handle_response payloads response
        ≠ .ok (.obj [("items", .arr []), ("error", .str "OpenRouter error"),
            ("details", d)]))
    ∧ (response.hasKey "choices" = false →
      handle_response payloads response
        = .ok (.obj [("items", .arr []), ("error", .str "OpenRouter error"),
            ("details", response)])) := by
  have htr : response.truthy = true := truthy_of_truthy_get response "error" herr
  constructor
  · intro hck
    have hext : handle_response payloads response = extraction_phase payloads response := by
      simp [handle_response, htr, hobj, herr, hck]
    refine ⟨hext, fun d => ?_⟩
    rw [hext]
    unfold extraction_phase
    cases hp : parse_openrouter_json response with
    | error e => simp [Bind.bind, Except.bind]
    | ok pc =>
        obtain ⟨parsed, content⟩ := pc
        cases hpd : parsed.isObj <;>
          simp [Bind.bind, Except.bind, Pure.pure, Except.pure, hpd]
  · intro hck
    simp [handle_response, htr, hobj, herr, hck]

/-- C10 witness: a truthy `error` with `choices` present proceeds to
extraction; the same `error` without `choices` yields the envelope. -/
theorem c10_error_guard_witness :
    (handle_response [] (.obj [("error", .bool true), ("choices", .arr [])])
      = extraction_phase [] (.obj [("error", .bool true), ("choices", .arr [])]))
    ∧ handle_response [] (.obj [("error", .bool true)])
      = .ok (.obj [("items", .arr []), ("error", .str "OpenRouter error"),
          ("details", .obj [("error", .bool true)])]) :=
  ⟨((c10_error_guard [] (.obj [("error", .bool true), ("choices", .arr [])])
      (by decide) (by decide)).1 (by decide)).1,
    (c10_error_guard [] (.obj [("error", .bool true)]) (by decide) (by decide)).2 (by decide)⟩
